import Mathlib

/-
  Shallow embedding of src/run_server.py: a one-shot batch converter that
  reads a wine price spreadsheet, groups rows by category, computes the
  winery age with Russian pluralization, renders an HTML catalog page and
  prints a report.  Machine integers are modelled as Int; Python's `%` on a
  positive divisor agrees with Lean's Int.emod (both return a non-negative
  remainder).  Fallible steps return Except; the external collaborators
  (pandas parsing, the Jinja engine, the file system) are abstract
  parameters of the pipeline.
-/

namespace Wine

/-- A spreadsheet cell as the pandas reader yields it: a string, a number,
or the NA marker (NaN).  `read_excel` is called with
`na_values=['', ' ', 'N/A', 'NULL']` and `keep_default_na=False`
(src/run_server.py line 45), so exactly those tokens, and truly empty
cells, come through as NA. -/
inductive CellValue where
  | str (s : String)
  | num (n : Int)
  | na
deriving DecidableEq, Repr

/-- The NA conversion the reader applies to a raw text cell, per the
`na_values` list of src/run_server.py line 45: the empty string, a single
space, "N/A" and "NULL" become the NA marker; every other string is kept. -/
def parse_cell (raw : String) : CellValue :=
  if raw = "" ∨ raw = " " ∨ raw = "N/A" ∨ raw = "NULL" then CellValue.na
  else CellValue.str raw

/-- A row of the spreadsheet: an association of column names to cells
(pandas Series, as produced by `catalog.iterrows()`). -/
abbrev Row := List (String × CellValue)

/-- Label lookup on a row: the value under the column name, if the column
is present. -/
def rowLookup (row : Row) (key : String) : Option CellValue :=
  (row.find? (fun p => p.1 == key)).map Prod.snd

/-- Python `row.get(key, default)`: the value when the label is present
(even when that value is the NA marker), the default otherwise. -/
def rowGet (row : Row) (key : String) (default : CellValue) : CellValue :=
  (rowLookup row key).getD default

/-- Python `row[key]` for a required column.  On frames reaching
`group_by_category` the required columns have been validated present; an
absent label (which raises KeyError in Python) is modelled as the NA cell
to keep the function total. -/
def rowIdx (row : Row) (key : String) : CellValue :=
  (rowLookup row key).getD CellValue.na

/-- src/run_server.py lines 31-32: `calculate_winery_age`. -/
def calculate_winery_age (foundation_year current_year : Int) : Int :=
  current_year - foundation_year

/-- src/run_server.py lines 35-39: `get_year_word`.  Python `%` on a
positive divisor returns a non-negative remainder, as does Int.emod. -/
def get_year_word (years : Int) : String :=
  if 11 ≤ years % 100 ∧ years % 100 ≤ 14 then "лет"
  else
    let last_digit := years % 10
    if last_digit = 1 then "год"
    else if 2 ≤ last_digit ∧ last_digit ≤ 4 then "года"
    else "лет"

/-- src/run_server.py lines 55-62: the normalized record built from one row.
Required fields use `row[key]`; optional fields use `row.get(key, '')`. -/
structure WineItem where
  name : CellValue
  grape_type : CellValue
  price : CellValue
  image : CellValue
  promotion : CellValue
deriving DecidableEq, Repr

/-- src/run_server.py lines 55-62: `extract_wine`. -/
def extract_wine (row : Row) : WineItem where
  name := rowIdx row "Название"
  grape_type := rowGet row "Сорт" (CellValue.str "")
  price := rowIdx row "Цена"
  image := rowIdx row "Картинка"
  promotion := rowGet row "Акция" (CellValue.str "")

/-- The grouped catalog: an insertion-ordered mapping from category value to
the list of wines in that category (Python `defaultdict(list)`; dicts keep
insertion order). -/
abbrev Grouped := List (CellValue × List WineItem)

/-- `grouped[cat].append(wine)` on a defaultdict(list): append to the entry
of an existing key, or add a fresh key at the end. -/
def appendGrouped (g : Grouped) (cat : CellValue) (wine : WineItem) : Grouped :=
  match g with
  | [] => [(cat, [wine])]
  | (k, ws) :: rest =>
      if k = cat then (k, ws ++ [wine]) :: rest
      else (k, ws) :: appendGrouped rest cat wine

/-- src/run_server.py lines 65-70: `group_by_category`, iterating rows in
source order. -/
def group_by_category (rows : List Row) : Grouped :=
  rows.foldl (fun g row => appendGrouped g (rowIdx row "Категория") (extract_wine row)) []

/-- src/run_server.py lines 93-94: `count_wines`, the sum of the lengths of
all category lists. -/
def count_wines (g : Grouped) : Nat :=
  (g.map (fun p => p.2.length)).sum

/-- The items stored under one category key of the grouped catalog
(the empty list when the key is absent). -/
def lookupGrouped (g : Grouped) (cat : CellValue) : List WineItem :=
  match g with
  | [] => []
  | (k, ws) :: rest => if k = cat then ws else lookupGrouped rest cat

/-- The distinct values of a list in order of first appearance: the key
order a defaultdict built by insertion exhibits. -/
def firstSeenKeys (cats : List CellValue) : List CellValue :=
  cats.foldl (fun acc c => if c ∈ acc then acc else acc ++ [c]) []

/-- src/run_server.py line 49: the required column set. -/
def required_columns : List String := ["Категория", "Название", "Цена", "Картинка"]

/-- src/run_server.py line 50: `required_columns - set(catalog.columns)`,
the required columns absent from the observed ones. -/
def missing_columns (cols : List String) : List String :=
  required_columns.filter (fun c => ¬ cols.contains c)

/-- src/run_server.py lines 48-52: `validate_catalog_columns`.  The raised
KeyError naming every missing column is the `.error` case carrying the
list of missing column names. -/
def validate_catalog_columns (cols : List String) : Except (List String) Unit :=
  if (missing_columns cols).isEmpty then Except.ok ()
  else Except.error (missing_columns cols)

/-- The tabular data a successful pandas parse yields: the column headers
and the rows. -/
structure DataFrame where
  columns : List String
  rows : List Row
deriving Repr

/-- The failure modes of the pipeline, one per except-branch of `main`
(src/run_server.py lines 143-170): FileNotFoundError, EmptyDataError,
ParserError, KeyError from column validation, TemplateNotFound and the
OSError/IOError pair from writing. -/
inductive PipelineError where
  | notFound (path : String)
  | emptyData
  | parseError (detail : String)
  | columnsMissing (cols : List String)
  | templateNotFound (path : String)
  | writeError (detail : String)
deriving DecidableEq, Repr

/-- A value bound in the Jinja template context. -/
inductive CtxValue where
  | int (n : Int)
  | str (s : String)
  | catalog (c : Grouped)
deriving Repr

/-- The template context type: named bindings handed to the engine. -/
abbrev Context := List (String × CtxValue)

/-- Lookup of one binding of a template context. -/
def ctxLookup (ctx : Context) (key : String) : Option CtxValue :=
  (ctx.find? (fun p => p.1 == key)).map Prod.snd

/-- src/run_server.py line 88: the context built by `render_catalog_page` —
exactly the three bindings winery_years, year_word and wines. -/
def build_context (catalog : Grouped) (years : Int) (year_word : String) : Context :=
  [("winery_years", CtxValue.int years),
   ("year_word", CtxValue.str year_word),
   ("wines", CtxValue.catalog catalog)]

/-- The external collaborators of the pipeline, abstracted: the file-system
existence check behind `Path(...).is_file()`, the pandas parse behind
`pd.read_excel` (its failures are EmptyDataError or ParserError), the Jinja
template loader (`none` models TemplateNotFound), the engine's rendering of
a loaded template against a context, and the writability of an output path
(`false` models OSError/IOError on save). -/
structure Env where
  isFile : String → Bool
  parseExcel : String → Except PipelineError DataFrame
  template : String → Option String
  render : String → Context → String
  writeOk : String → Bool
  writeDetail : String

/-- src/run_server.py lines 42-45: `read_excel_file`.  The existence check
runs first; only when it passes is the pandas parse consulted. -/
def read_excel_file (isFile : String → Bool) (parseExcel : String → Except PipelineError DataFrame) (file_path : String) : Except PipelineError DataFrame :=
  if isFile file_path = false then Except.error (PipelineError.notFound file_path)
  else parseExcel file_path

/-- src/run_server.py lines 86-90: `render_catalog_page` — resolve the
template, render it against the three-binding context, save the html.  The
result carries the html text that was written. -/
def render_catalog_page (env : Env) (catalog : Grouped) (years : Int) (year_word : String) (template_filepath output_filepath : String) : Except PipelineError String :=
  match env.template template_filepath with
  | none => Except.error (PipelineError.templateNotFound template_filepath)
  | some tmpl =>
      let html := env.render tmpl (build_context catalog years year_word)
      if env.writeOk output_filepath then Except.ok html
      else Except.error (PipelineError.writeError env.writeDetail)

/-- The resolved run configuration (src/run_server.py lines 123-129). -/
structure Config where
  excel_filepath : String
  template_filepath : String
  output_filepath : String
  foundation_year : Int
  current_year : Int

/-- The load stage of `main` (src/run_server.py lines 139-140): read the
spreadsheet, then validate its columns. -/
def loadStage (env : Env) (cfg : Config) : Except PipelineError DataFrame := do
  let df ← read_excel_file env.isFile env.parseExcel cfg.excel_filepath
  match validate_catalog_columns df.columns with
  | Except.error missing => Except.error (PipelineError.columnsMissing missing)
  | Except.ok _ => pure df

/-- The single-line operator message each failure prints
(src/run_server.py lines 143-170). -/
def errorMessage : PipelineError → String
  | PipelineError.notFound p => "❌ Файл не найден: Файл не найден: " ++ p
  | PipelineError.emptyData => "❌ Ошибка: Excel-файл пуст"
  | PipelineError.parseError d => "❌ Ошибка парсинга Excel: " ++ d
  | PipelineError.columnsMissing cols =>
      "❌ Ошибка структуры данных: Отсутствуют обязательные колонки: " ++ String.intercalate ", " cols
  | PipelineError.templateNotFound p => "❌ Шаблон не найден: " ++ p
  | PipelineError.writeError d => "❌ Ошибка ввода-вывода при записи результата: " ++ d

/-- The observable outcome of one run of `main`: the computed display
values, the process exit status, the status lines printed and whether the
final report stage ran. -/
structure RunResult where
  winery_years : Int
  year_word : String
  exitCode : Nat
  messages : List String
  reported : Bool
deriving Repr

/-- src/run_server.py lines 113-172: `main`.  The age and its word form are
computed from the configuration before the spreadsheet is touched (lines
134-135).  Every failure branch prints its message and `return`s from
`main`, so the Python process exits with status 0 on failure exactly as it
does on success. -/
def main (cfg : Config) (env : Env) : RunResult :=
  let years := calculate_winery_age cfg.foundation_year cfg.current_year
  let year_word := get_year_word years
  match loadStage env cfg with
  | Except.error e =>
      { winery_years := years, year_word := year_word, exitCode := 0,
        messages := [errorMessage e], reported := false }
  | Except.ok df =>
      let catalog := group_by_category df.rows
      match render_catalog_page env catalog years year_word cfg.template_filepath cfg.output_filepath with
      | Except.error e =>
          { winery_years := years, year_word := year_word, exitCode := 0,
            messages := ["✅ Каталог вин загружен и сгруппирован", errorMessage e],
            reported := false }
      | Except.ok _ =>
          { winery_years := years, year_word := year_word, exitCode := 0,
            messages := ["✅ Каталог вин загружен и сгруппирован",
                         "✅ HTML-страница успешно сгенерирована"],
            reported := true }

/-- A minimal complete source row with the given category and name. -/
def exRow (cat name : String) : Row :=
  [("Категория", CellValue.str cat), ("Название", CellValue.str name),
   ("Цена", CellValue.num 100), ("Картинка", CellValue.str "img.png")]

/-- A well-formed one-row frame, for concrete runs of the pipeline. -/
def dfOk : DataFrame :=
  { columns := ["Категория", "Название", "Цена", "Картинка"],
    rows := [exRow "Красные" "Вино"] }

/-- An environment in which every external step succeeds. -/
def envOk : Env :=
  { isFile := fun _ => true, parseExcel := fun _ => Except.ok dfOk,
    template := fun _ => some "tmpl", render := fun _ _ => "html",
    writeOk := fun _ => true, writeDetail := "" }

/-- The environment of `envOk` with the input spreadsheet absent. -/
def envMissingFile : Env :=
  { envOk with isFile := fun _ => false }

/-- A concrete resolved configuration (the built-in defaults of
src/run_server.py lines 12-15 with the 2023 reference year). -/
def cfgEx : Config :=
  { excel_filepath := "wine_price_list.xlsx", template_filepath := "template.html",
    output_filepath := "index.html", foundation_year := 1920, current_year := 2023 }

/-! Helper lemmas shared by several results. -/

theorem main_winery_years_eq (cfg : Config) (env : Env) :
    (main cfg env).winery_years = cfg.current_year - cfg.foundation_year := by
  simp only [main]
  split
  · rfl
  · split <;> rfl

theorem main_year_word_eq (cfg : Config) (env : Env) :
    (main cfg env).year_word = get_year_word (cfg.current_year - cfg.foundation_year) := by
  simp only [main]
  split
  · rfl
  · split <;> rfl

/-- C8: the winery age is exactly `currentYear - foundationYear`, with no
clamping, and `main` passes the possibly negative or zero difference
unchanged to the pluralization rule and into the run's display values. -/
theorem calculate_winery_age_spec :
    (∀ foundationYear currentYear : Int,
        calculate_winery_age foundationYear currentYear = currentYear - foundationYear) ∧
    (∀ (cfg : Config) (env : Env),
        (main cfg env).winery_years = cfg.current_year - cfg.foundation_year ∧
        (main cfg env).year_word = get_year_word (cfg.current_year - cfg.foundation_year)) := by
  refine ⟨fun _ _ => rfl, fun cfg env => ⟨main_winery_years_eq cfg env, main_year_word_eq cfg env⟩⟩

/-- C10: the displayed age and word form depend only on the configuration
(foundation year and current year); two runs with the same configuration
and arbitrarily different external environments — in particular different
spreadsheet contents — produce identical winery_years and year_word. -/
theorem main_display_values_independent (cfg : Config) (env env' : Env) :
    (main cfg env).winery_years = (main cfg env').winery_years ∧
    (main cfg env).year_word = (main cfg env').year_word := by
  rw [main_winery_years_eq, main_winery_years_eq, main_year_word_eq, main_year_word_eq]
  exact ⟨rfl, rfl⟩

/-- C1: `get_year_word` returns the 5+ form "лет" whenever the non-negative
remainder mod 100 lies in [11, 14]; otherwise it returns "год" when the
remainder mod 10 is 1, "года" when that remainder lies in [2, 4], and
"лет" in all remaining cases — and the remainders used are non-negative
for every integer, negative ones included. -/
theorem get_year_word_spec (n : Int) :
    (0 ≤ n % 100 ∧ n % 100 < 100 ∧ 0 ≤ n % 10 ∧ n % 10 < 10) ∧
    (11 ≤ n % 100 ∧ n % 100 ≤ 14 → get_year_word n = "лет") ∧
    (¬ (11 ≤ n % 100 ∧ n % 100 ≤ 14) → n % 10 = 1 → get_year_word n = "год") ∧
    (¬ (11 ≤ n % 100 ∧ n % 100 ≤ 14) → 2 ≤ n % 10 ∧ n % 10 ≤ 4 → get_year_word n = "года") ∧
    (¬ (11 ≤ n % 100 ∧ n % 100 ≤ 14) → n % 10 ≠ 1 → ¬ (2 ≤ n % 10 ∧ n % 10 ≤ 4) →
        get_year_word n = "лет") := by
  refine ⟨⟨?_, ?_, ?_, ?_⟩, ?_, ?_, ?_, ?_⟩
  · exact Int.emod_nonneg n (by norm_num)
  · exact Int.emod_lt_of_pos n (by norm_num)
  · exact Int.emod_nonneg n (by norm_num)
  · exact Int.emod_lt_of_pos n (by norm_num)
  · intro h; simp [get_year_word, h]
  · intro h h1; simp [get_year_word, h, h1]
  · intro h h24
    have h1 : ¬ n % 10 = 1 := by omega
    simp [get_year_word, h, h1, h24]
  · intro h h1 h24; simp [get_year_word, h, h1, h24]

/-- Witness for C1 at the concrete input 11 (eleven years → "лет"). -/
theorem get_year_word_spec_witness : get_year_word 11 = "лет" :=
  (get_year_word_spec 11).2.1 (by decide)

theorem mem_missing_columns (cols : List String) (c : String) :
    c ∈ missing_columns cols ↔ c ∈ required_columns ∧ c ∉ cols := by
  simp [missing_columns, List.mem_filter]

/-- C2: column validation fails exactly when the required set
{Категория, Название, Цена, Картинка} is not contained in the observed
columns, the error names every missing required column (not just the
first), and the optional columns Сорт and Акция are not required — their
absence never triggers the error. -/
theorem validate_catalog_columns_spec (cols : List String) :
    (validate_catalog_columns cols = Except.ok () ↔ ∀ c ∈ required_columns, c ∈ cols) ∧
    (∀ m, validate_catalog_columns cols = Except.error m →
        m ≠ [] ∧ ∀ c, c ∈ m ↔ (c ∈ required_columns ∧ c ∉ cols)) ∧
    ("Сорт" ∉ required_columns ∧ "Акция" ∉ required_columns) ∧
    validate_catalog_columns (cols.filter (fun c => ¬ (c = "Сорт" ∨ c = "Акция"))) =
      validate_catalog_columns cols := by
  have hmiss : missing_columns (cols.filter (fun c => ¬ (c = "Сорт" ∨ c = "Акция"))) =
      missing_columns cols := by
    apply List.filter_congr
    intro c hc
    fin_cases hc <;> simp [List.mem_filter]
  refine ⟨?_, ?_, by decide, ?_⟩
  · unfold validate_catalog_columns
    split
    · rename_i hempty
      simp only [List.isEmpty_iff] at hempty
      constructor
      · intro _ c hc
        by_contra habs
        have : c ∈ missing_columns cols := (mem_missing_columns cols c).mpr ⟨hc, habs⟩
        simp [hempty] at this
      · intro _; rfl
    · rename_i hempty
      simp only [List.isEmpty_iff] at hempty
      constructor
      · intro h; cases h
      · intro hall
        exfalso
        apply hempty
        rw [List.eq_nil_iff_forall_not_mem]
        intro c hc
        have := (mem_missing_columns cols c).mp hc
        exact this.2 (hall c this.1)
  · intro m hm
    unfold validate_catalog_columns at hm
    split at hm
    · cases hm
    · rename_i hempty
      simp only [List.isEmpty_iff] at hempty
      cases hm
      exact ⟨hempty, fun c => mem_missing_columns cols c⟩
  · unfold validate_catalog_columns
    rw [hmiss]

/-- Witness for C2: with Картинка absent the error names exactly Картинка. -/
theorem validate_catalog_columns_spec_witness :
    (["Картинка"] : List String) ≠ [] ∧
    ∀ c, c ∈ (["Картинка"] : List String) ↔
      (c ∈ required_columns ∧ c ∉ (["Категория", "Название", "Цена"] : List String)) :=
  (validate_catalog_columns_spec ["Категория", "Название", "Цена"]).2.1 ["Картинка"] (by rfl)

/-- C3: when the existence check fails, loading yields NotFoundError for
that path whatever the parser would do — the parse step is never consulted,
so any two parsers give the identical outcome. -/
theorem read_excel_file_notFound (isFile : String → Bool) (file_path : String)
    (h : isFile file_path = false) :
    ∀ parseExcel parseExcel' : String → Except PipelineError DataFrame,
      read_excel_file isFile parseExcel file_path =
        Except.error (PipelineError.notFound file_path) ∧
      read_excel_file isFile parseExcel file_path =
        read_excel_file isFile parseExcel' file_path := by
  intro p p'
  simp [read_excel_file, h]

/-- Witness for C3 at a concrete absent path. -/
theorem read_excel_file_notFound_witness :
    read_excel_file (fun _ => false) (fun _ => Except.ok dfOk) "wine_price_list.xlsx" =
      Except.error (PipelineError.notFound "wine_price_list.xlsx") :=
  (read_excel_file_notFound (fun _ => false) "wine_price_list.xlsx" rfl
    (fun _ => Except.ok dfOk) (fun _ => Except.ok dfOk)).1

/-- C4 counterexample: a row whose optional Сорт column is present but
holds the token "N/A" (which the reader converts to the NA marker) yields
a WineItem whose grape_type is the NA marker, not the empty string. -/
theorem extract_wine_na_counterexample :
    (extract_wine (exRow "Белые" "Вино" ++ [("Сорт", parse_cell "N/A")])).grape_type =
      CellValue.na ∧
    CellValue.na ≠ CellValue.str "" := by
  exact ⟨rfl, by simp⟩

/-- C4 amended: the empty-string default of an optional field applies
exactly when that column is absent from the row; when the column is
present its cell value — in particular the NA marker that the reader
produces for blank, single-space, "N/A" and "NULL" cells — is carried into
the WineItem unchanged. -/
theorem extract_wine_optional_fields (row : Row) :
    (rowLookup row "Сорт" = none → (extract_wine row).grape_type = CellValue.str "") ∧
    (∀ v, rowLookup row "Сорт" = some v → (extract_wine row).grape_type = v) ∧
    (rowLookup row "Акция" = none → (extract_wine row).promotion = CellValue.str "") ∧
    (∀ v, rowLookup row "Акция" = some v → (extract_wine row).promotion = v) ∧
    (∀ raw, (raw = "" ∨ raw = " " ∨ raw = "N/A" ∨ raw = "NULL") →
        parse_cell raw = CellValue.na) := by
  refine ⟨?_, ?_, ?_, ?_, ?_⟩
  · intro h; simp [extract_wine, rowGet, h]
  · intro v h; simp [extract_wine, rowGet, h]
  · intro h; simp [extract_wine, rowGet, h]
  · intro v h; simp [extract_wine, rowGet, h]
  · intro raw h; simp [parse_cell, h]

/-- Witness for C4's amended statement: a row without the optional columns
gets the empty string. -/
theorem extract_wine_optional_fields_witness :
    (extract_wine (exRow "Белые" "Вино")).grape_type = CellValue.str "" :=
  (extract_wine_optional_fields (exRow "Белые" "Вино")).1 (by rfl)

/-- C7: the rendering step hands the template exactly the three bindings
winery_years (the integer age), year_word (the word form) and wines (the
full grouped catalog as structured data, so no per-item HTML is
pre-rendered by the system), and the html written is whatever the external
engine renders from that context. -/
theorem render_catalog_page_context_spec (env : Env) (catalog : Grouped) (years : Int)
    (year_word : String) (tpath opath : String) (tmpl : String)
    (ht : env.template tpath = some tmpl) (hw : env.writeOk opath = true) :
    render_catalog_page env catalog years year_word tpath opath =
      Except.ok (env.render tmpl (build_context catalog years year_word)) ∧
    (build_context catalog years year_word).map Prod.fst =
      ["winery_years", "year_word", "wines"] ∧
    ctxLookup (build_context catalog years year_word) "winery_years" =
      some (CtxValue.int years) ∧
    ctxLookup (build_context catalog years year_word) "year_word" =
      some (CtxValue.str year_word) ∧
    ctxLookup (build_context catalog years year_word) "wines" =
      some (CtxValue.catalog catalog) := by
  refine ⟨?_, rfl, rfl, rfl, rfl⟩
  simp [render_catalog_page, ht, hw]

/-- Witness for C7 in the all-success environment. -/
theorem render_catalog_page_context_spec_witness :
    render_catalog_page envOk [] 103 "года" "template.html" "index.html" =
      Except.ok (envOk.render "tmpl" (build_context [] 103 "года")) :=
  (render_catalog_page_context_spec envOk [] 103 "года" "template.html" "index.html"
    "tmpl" rfl rfl).1

theorem appendGrouped_keys (g : Grouped) (cat : CellValue) (w : WineItem) :
    (appendGrouped g cat w).map Prod.fst =
      if cat ∈ g.map Prod.fst then g.map Prod.fst else g.map Prod.fst ++ [cat] := by
  induction g with
  | nil => simp [appendGrouped]
  | cons p rest ih =>
    obtain ⟨k, ws⟩ := p
    by_cases hk : k = cat
    · subst hk; simp [appendGrouped]
    · have hk' : ¬ cat = k := fun h => hk h.symm
      simp only [appendGrouped, if_neg hk, List.map_cons, ih, List.mem_cons, hk',
        false_or]
      by_cases hmem : cat ∈ rest.map Prod.fst <;> simp [hmem]

theorem lookup_appendGrouped (g : Grouped) (cat c : CellValue) (w : WineItem) :
    lookupGrouped (appendGrouped g cat w) c =
      if c = cat then lookupGrouped g c ++ [w] else lookupGrouped g c := by
  induction g with
  | nil =>
    by_cases h : c = cat
    · subst h; simp [appendGrouped, lookupGrouped]
    · have h' : ¬ cat = c := fun hh => h hh.symm
      simp [appendGrouped, lookupGrouped, h, h']
  | cons p rest ih =>
    obtain ⟨k, ws⟩ := p
    by_cases hk : k = cat
    · subst hk
      by_cases hc : k = c
      · subst hc; simp [appendGrouped, lookupGrouped]
      · have hc' : ¬ c = k := fun h => hc h.symm
        simp [appendGrouped, lookupGrouped, hc, hc']
    · by_cases hc : k = c
      · subst hc
        simp [appendGrouped, lookupGrouped, hk]
      · simp [appendGrouped, lookupGrouped, hk, hc, ih]

theorem count_appendGrouped (g : Grouped) (cat : CellValue) (w : WineItem) :
    count_wines (appendGrouped g cat w) = count_wines g + 1 := by
  induction g with
  | nil => simp [appendGrouped, count_wines]
  | cons p rest ih =>
    obtain ⟨k, ws⟩ := p
    by_cases hk : k = cat
    · subst hk; simp [appendGrouped, count_wines]; omega
    · simp [appendGrouped, count_wines, hk] at ih ⊢; omega

theorem group_keys_go (rows : List Row) (g : Grouped) :
    ((rows.foldl (fun g row =>
        appendGrouped g (rowIdx row "Категория") (extract_wine row)) g).map Prod.fst) =
      (rows.map (fun row => rowIdx row "Категория")).foldl
        (fun acc c => if c ∈ acc then acc else acc ++ [c]) (g.map Prod.fst) := by
  induction rows generalizing g with
  | nil => rfl
  | cons r rs ih =>
    simp only [List.foldl_cons, List.map_cons]
    rw [ih, appendGrouped_keys]

theorem group_items_go (rows : List Row) (g : Grouped) (c : CellValue) :
    lookupGrouped (rows.foldl (fun g row =>
        appendGrouped g (rowIdx row "Категория") (extract_wine row)) g) c =
      lookupGrouped g c ++
        (rows.filter (fun r => rowIdx r "Категория" = c)).map extract_wine := by
  induction rows generalizing g with
  | nil => simp
  | cons r rs ih =>
    simp only [List.foldl_cons, List.filter_cons]
    rw [ih, lookup_appendGrouped]
    by_cases h : rowIdx r "Категория" = c
    · simp [h, List.append_assoc]
    · have h' : ¬ c = rowIdx r "Категория" := fun hh => h hh.symm
      simp [h, h']

theorem group_count_go (rows : List Row) (g : Grouped) :
    count_wines (rows.foldl (fun g row =>
        appendGrouped g (rowIdx row "Категория") (extract_wine row)) g) =
      count_wines g + rows.length := by
  induction rows generalizing g with
  | nil => simp
  | cons r rs ih =>
    simp only [List.foldl_cons, List.length_cons]
    rw [ih, count_appendGrouped]
    omega

/-- C6: grouping is stable and keys by exact value equality — the catalog's
keys are the category values in order of first appearance, each category
holds exactly the wines of the rows carrying that precise category value in
source order; on the rows [(CatA,X),(CatB,Y),(CatA,Z)] the key order is
[CatA, CatB] with CatA's items [X, Z], and category values differing only
in case or trailing whitespace form distinct keys. -/
theorem group_by_category_spec (rows : List Row) :
    ((group_by_category rows).map Prod.fst =
      firstSeenKeys (rows.map (fun row => rowIdx row "Категория"))) ∧
    (∀ c, lookupGrouped (group_by_category rows) c =
      (rows.filter (fun r => rowIdx r "Категория" = c)).map extract_wine) ∧
    ((group_by_category [exRow "CatA" "X", exRow "CatB" "Y", exRow "CatA" "Z"]).map
        Prod.fst = [CellValue.str "CatA", CellValue.str "CatB"]) ∧
    (lookupGrouped (group_by_category [exRow "CatA" "X", exRow "CatB" "Y", exRow "CatA" "Z"])
        (CellValue.str "CatA") = [extract_wine (exRow "CatA" "X"), extract_wine (exRow "CatA" "Z")]) ∧
    ((group_by_category [exRow "Вино" "A", exRow "вино" "B", exRow "Вино " "C"]).map
        Prod.fst = [CellValue.str "Вино", CellValue.str "вино", CellValue.str "Вино "]) := by
  refine ⟨?_, ?_, by rfl, by rfl, by rfl⟩
  · simpa [group_by_category, firstSeenKeys] using group_keys_go rows []
  · intro c
    simpa [group_by_category, lookupGrouped] using group_items_go rows [] c

/-- C9: grouping preserves cardinality — the reporter's total count over
the grouped catalog equals the number of source rows. -/
theorem count_wines_group_by_category (rows : List Row) :
    count_wines (group_by_category rows) = rows.length := by
  simpa [group_by_category, count_wines] using group_count_go rows []

/-- C5 counterexample: a run that fails with NotFoundError terminates with
exit status 0 — the very same status as a run that completes every stage —
so no failure mode yields a non-zero outcome distinct from success. -/
theorem main_exit_code_counterexample :
    (main cfgEx envMissingFile).reported = false ∧
    (main cfgEx envMissingFile).messages =
      [errorMessage (PipelineError.notFound "wine_price_list.xlsx")] ∧
    (main cfgEx envMissingFile).exitCode = 0 ∧
    (main cfgEx envOk).reported = true ∧
    (main cfgEx envOk).exitCode = 0 ∧
    (main cfgEx envMissingFile).exitCode = (main cfgEx envOk).exitCode := by
  refine ⟨rfl, rfl, rfl, rfl, rfl, rfl⟩

/-- C5 amended: every failure mode prints a user-facing ❌ message and
aborts the run before the report stage, while a run that completes every
stage reaches the report — but the process exits with status 0 in both
cases (`main` returns normally on every path), so failure and success are
distinguished by the message and the skipped stages, not by the exit
status. -/
theorem main_failure_reporting (cfg : Config) (env : Env) :
    (main cfg env).exitCode = 0 ∧
    (∀ e, ∃ rest, errorMessage e = "❌ " ++ rest) ∧
    (∀ e, loadStage env cfg = Except.error e →
        (main cfg env).messages = [errorMessage e] ∧ (main cfg env).reported = false) ∧
    (∀ df e, loadStage env cfg = Except.ok df →
        render_catalog_page env (group_by_category df.rows)
          (calculate_winery_age cfg.foundation_year cfg.current_year)
          (get_year_word (calculate_winery_age cfg.foundation_year cfg.current_year))
          cfg.template_filepath cfg.output_filepath = Except.error e →
        errorMessage e ∈ (main cfg env).messages ∧ (main cfg env).reported = false) ∧
    (∀ df html, loadStage env cfg = Except.ok df →
        render_catalog_page env (group_by_category df.rows)
          (calculate_winery_age cfg.foundation_year cfg.current_year)
          (get_year_word (calculate_winery_age cfg.foundation_year cfg.current_year))
          cfg.template_filepath cfg.output_filepath = Except.ok html →
        (main cfg env).reported = true) := by
  refine ⟨?_, ?_, ?_, ?_, ?_⟩
  · simp only [main]
    split
    · rfl
    · split <;> rfl
  · intro e; cases e <;> exact ⟨_, rfl⟩
  · intro e he
    simp [main, he]
  · intro df e hdf hre
    simp [main, hdf, hre]
  · intro df html hdf hre
    simp [main, hdf, hre]

/-- Witness for C5's amended statement: the NotFoundError run prints its
message and skips the report. -/
theorem main_failure_reporting_witness :
    (main cfgEx envMissingFile).messages =
      [errorMessage (PipelineError.notFound "wine_price_list.xlsx")] ∧
    (main cfgEx envMissingFile).reported = false :=
  (main_failure_reporting cfgEx envMissingFile).2.2.1
    (PipelineError.notFound "wine_price_list.xlsx") (by rfl)

end Wine
